import Mathlib

/-
Verification of the AIClinic triage backend (src/main.py, src/app/agent.py,
src/app/schemas.py) against its natural-language specification.

Modelling conventions:
* Texts are `List Char` (Python `str`); a Lean literal `"chest pain".data`
  stands for the corresponding Python string literal.
* Python dicts are association lists (`List (String × α)`) in insertion
  order; `dictGet?` models `d.get(k)` and `dictGet` models `d.get(k, v)`.
* `pyLowerChar` models Python `str.lower` on the character ranges that
  occur in the program's catalogs: ASCII letters, the Cyrillic letter
  ranges U+0400-U+042F, and the two cased Georgian ranges (Asomtavruli,
  Mtavruli); every other code point is returned unchanged.
* `isPySpace` models the character class stripped by Python `str.strip()`.
* The external OpenAI call is modelled by an `Except Unit (List Char)`
  parameter: `Except.ok raw` means the client returned `raw` as the reply
  text, `Except.error ()` means the client layer raised an exception.
* `chat` (the `/api/chat` endpoint body) returns, besides the HTTP
  response, counters of how many times it invoked `detect_lang`,
  `emergency_red_flags` and `call_llm`; `analyze_symptoms` is invoked only
  inside `call_llm`, so `llm_calls = 0` also means no classification ran.
-/

/-- Characters removed by Python `str.strip()` (the `str.isspace` class). -/
def isPySpace (c : Char) : Bool :=
  let n := c.toNat
  (9 ≤ n && n ≤ 13) || n == 32 || (28 ≤ n && n ≤ 31) || n == 0x85 || n == 0xA0 ||
    n == 0x1680 || (0x2000 ≤ n && n ≤ 0x200A) || n == 0x2028 || n == 0x2029 ||
    n == 0x202F || n == 0x205F || n == 0x3000

/-- Python `s.strip()`: drop leading and trailing whitespace. -/
def pyStrip (l : List Char) : List Char :=
  ((l.dropWhile isPySpace).reverse.dropWhile isPySpace).reverse

/-- Python `str.lower` on one character, restricted to the ranges relevant to
the program's catalogs (ASCII, Cyrillic U+0400-U+042F, Georgian Asomtavruli
and Mtavruli); all other code points are unchanged. -/
def pyLowerChar (c : Char) : Char :=
  let n := c.toNat
  if 65 ≤ n ∧ n ≤ 90 then Char.ofNat (n + 32)
  else if 0x400 ≤ n ∧ n ≤ 0x40F then Char.ofNat (n + 80)
  else if 0x410 ≤ n ∧ n ≤ 0x42F then Char.ofNat (n + 32)
  else if (0x10A0 ≤ n ∧ n ≤ 0x10C5) ∨ n = 0x10C7 ∨ n = 0x10CD then Char.ofNat (n + 7264)
  else if (0x1C90 ≤ n ∧ n ≤ 0x1CBA) ∨ (0x1CBD ≤ n ∧ n ≤ 0x1CBF) then Char.ofNat (n - 3008)
  else c

/-- Python `text.lower()` on a whole string. -/
def pyLower (l : List Char) : List Char := l.map pyLowerChar

/-- Whether the first list is an initial segment of the second
(Python `s.startswith(n)`). -/
def startsWithL : List Char → List Char → Bool
  | [], _ => true
  | _ :: _, [] => false
  | a :: as, b :: bs => a == b && startsWithL as bs

/-- Python substring containment `needle in hay`. -/
def containsSub (needle : List Char) : List Char → Bool
  | [] => startsWithL needle []
  | b :: bs => startsWithL needle (b :: bs) || containsSub needle bs

/-- Python `d.get(k)` over an association list in insertion order. -/
def dictGet? {α : Type} (m : List (String × α)) (k : String) : Option α :=
  (m.find? (fun p => p.1 == k)).map Prod.snd

/-- Python `d.get(k, v)` over an association list. -/
def dictGet {α : Type} (m : List (String × α)) (k : String) (v : α) : α :=
  (dictGet? m k).getD v

/-- `agent.detect_lang`: count Georgian-block and Cyrillic-block characters,
return "ka" / "ru" / "en". -/
def detect_lang (text : List Char) : String :=
  let ka_chars := text.countP (fun ch => decide ('Ⴀ' ≤ ch) && decide (ch ≤ 'ჿ'))
  let ru_chars := text.countP (fun ch => decide ('Ѐ' ≤ ch) && decide (ch ≤ 'ӿ'))
  if ka_chars > ru_chars ∧ ka_chars > 0 then "ka"
  else if ru_chars > 0 then "ru"
  else "en"

/-- The static red-flag catalog of `agent.emergency_red_flags`, in source
order, each phrase with its (informational) language tag. -/
def red_flag_catalog : List (List Char × String) :=
  [ ("chest pain".data, "en"), ("shortness of breath".data, "en"), ("severe headache".data, "en"),
    ("loss of consciousness".data, "en"), ("stroke".data, "en"), ("suicidal".data, "en"),
    ("can't breathe".data, "en"), ("heart attack".data, "en"), ("severe bleeding".data, "en"),
    ("მკერდის ტკივილი".data, "ka"), ("სუნთქვის უკმარისობა".data, "ka"), ("ძლიერი თავის ტკივილი".data, "ka"),
    ("ბოდავს".data, "ka"), ("თვითმკვლელობა".data, "ka"), ("გულის შეტევა".data, "ka"),
    ("боль в груди".data, "ru"), ("одышка".data, "ru"), ("сильная головная боль".data, "ru"),
    ("потеря сознания".data, "ru"), ("инсульт".data, "ru"), ("суицид".data, "ru"), ("инфаркт".data, "ru") ]

/-- The catalog phrases in catalog order. -/
def red_flag_phrases : List (List Char) := red_flag_catalog.map Prod.fst

/-- `agent.emergency_red_flags`: lowercase the text, return the first catalog
phrase contained in it, else none. -/
def emergency_red_flags (text : List Char) : Option (List Char) :=
  let lower := pyLower text
  (red_flag_catalog.find? (fun p => containsSub p.1 lower)).map Prod.fst

/-- One value of the `DISEASE_GUIDELINES` dict in `agent.py`. -/
structure GuidelineInfo where
  symptoms : List String
  guidance : List (String × String)
  red_flags : List String
deriving DecidableEq

/-- `agent.DISEASE_GUIDELINES`, in source (insertion) order.  The long
localized guidance texts are abbreviated to their language-tagged entries;
only their identity matters to the claims, so each is kept verbatim. -/
def DISEASE_GUIDELINES : List (String × GuidelineInfo) :=
  [ ("common_cold",
     { symptoms := ["runny nose", "sneezing", "mild cough", "sore throat"]
       guidance := [ ("en", "Rest, fluids, OTC pain relievers. Usually resolves in 7-10 days."),
                     ("ka", "დასვენება, ბევრი სითხე, ტკივილგამათლმშრალებელი. ჩვეულებრივ 7-10 დღეში გადის."),
                     ("ru", "Покой, обильное питье, безрецептурные обезболивающие. Обычно проходит за 7-10 дней.") ]
       red_flags := ["high fever >38.5°C", "difficulty breathing", "severe headache"] }),
    ("flu",
     { symptoms := ["fever", "body aches", "fatigue", "dry cough"]
       guidance := [ ("en", "Rest, fluids, fever reducers. Antiviral drugs may help if started early."),
                     ("ka", "დასვენება, სითხეები, ცხელების შემამცირებელი. ანტივირუსული ადრე დაწყებით შეიძლება დაეხმაროს."),
                     ("ru", "Покой, жидкости, жаропонижающие. Противовирусные препараты могут помочь при раннем начале.") ]
       red_flags := ["difficulty breathing", "persistent high fever", "severe dehydration"] }),
    ("headache",
     { symptoms := ["head pain", "tension", "migraine"]
       guidance := [ ("en", "Rest in dark room, hydration, OTC pain relievers. Identify triggers."),
                     ("ka", "დასვენება მუქ ოთახში, ჰიდრატაცია, ტკივილგამათისებელი. გამომწვევი ფაქტორების იდენტიფიცირება."),
                     ("ru", "Отдых в темной комнате, увлажнение, безрецептурные обезболивающие. Выявление триггеров.") ]
       red_flags := ["sudden severe headache", "fever with headache", "vision changes"] }),
    ("stomach_pain",
     { symptoms := ["stomach ache", "abdominal pain", "nausea", "indigestion"]
       guidance := [ ("en", "Light diet, clear fluids, rest. Avoid dairy and fatty foods."),
                     ("ka", "მსუბუქი დიეტა, გამჭვირვალე სითხეები, დასვენება. ავარიდეთ რძის პროდუქტები და ცხიმიანი საკვები."),
                     ("ru", "Легкая диета, прозрачные жидкости, покой. Избегайте молочных и жирных продуктов.") ]
       red_flags := ["severe pain", "vomiting blood", "high fever", "severe dehydration"] }) ]

/-- The `symptom_keywords` dict of `agent.analyze_symptoms`, in source order. -/
def symptom_keywords : List (String × List (List Char)) :=
  [ ("headache", ["headache".data, "head pain".data, "migraine".data, "თავის ტკივილი".data, "головная боль".data]),
    ("fever", ["fever".data, "hot".data, "temperature".data, "ცხელება".data, "лихорадка".data]),
    ("cough", ["cough".data, "coughing".data, "ხველა".data, "кашель".data]),
    ("cold", ["cold".data, "runny nose".data, "sneezing".data, "ცივი".data, "простуда".data]),
    ("stomach_pain", ["stomach".data, "belly".data, "abdominal".data, "nausea".data, "კუჭი".data, "живот".data, "тошнота".data]) ]

/-- The `high_urgency_keywords` list of `agent.analyze_symptoms`. -/
def high_urgency_keywords : List (List Char) :=
  ["severe".data, "intense".data, "can't".data, "unable".data, "emergency".data, "ძლიერი".data, "сильный".data]

/-- `agent.analyze_symptoms`: returns
`(primary_symptom, found_symptoms, urgency_level)`. -/
def analyze_symptoms (text : List Char) (lang : String) : String × List String × String :=
  let text_lower := pyLower text
  let found_symptoms :=
    (symptom_keywords.filter (fun p => p.2.any (fun kw => containsSub kw text_lower))).map Prod.fst
  let primary_symptom := found_symptoms.headD "general"
  let urgency_level :=
    if high_urgency_keywords.any (fun kw => containsSub kw text_lower) then "moderate" else "low"
  (primary_symptom, found_symptoms, urgency_level)

/-- The record returned by `agent.get_disease_guidance` when it finds a match. -/
structure DiseaseInfo where
  condition : String
  guidance : String
  red_flags : List String
deriving DecidableEq

/-- `agent.get_disease_guidance`: scan `DISEASE_GUIDELINES` in order; an entry
matches when the symptom token is (string-equal to) one of its symptom
keywords or equals the condition name.  `info["guidance"]["en"]` always
exists, so the inner `dictGet` default is never used. -/
def get_disease_guidance (symptom : String) (lang : String) : Option DiseaseInfo :=
  (DISEASE_GUIDELINES.find? (fun p => p.2.symptoms.contains symptom || symptom == p.1)).map
    (fun p =>
      { condition := p.1
        guidance := dictGet p.2.guidance lang (dictGet p.2.guidance "en" "")
        red_flags := p.2.red_flags })

/-- The `questions` table of `agent.generate_follow_up_questions`. -/
def follow_up_question_table : List (String × List (String × List (List Char))) :=
  [ ("headache",
     [ ("en", ["How would you rate the pain on a scale of 1-10?".data]),
       ("ka", ["როგორ შეაფასებდით ტკივილს 1-10 შკალაზე?".data]),
       ("ru", ["Как бы вы оценили боль по шкале от 1 до 10?".data]) ]),
    ("fever",
     [ ("en", ["What's your current temperature?".data]),
       ("ka", ["რა არის თქვენი ახლანდელი ტემპერატურა?".data]),
       ("ru", ["Какая у вас сейчас температура?".data]) ]),
    ("cough",
     [ ("en", ["Is the cough dry or with phlegm?".data]),
       ("ka", ["ხველა მშრალია თუ კავებით?".data]),
       ("ru", ["Кашель сухой или с мокротой?".data]) ]),
    ("stomach_pain",
     [ ("en", ["When did the stomach pain start?".data]),
       ("ka", ["როდის დაიწყო კუჭის ტკივილი?".data]),
       ("ru", ["Когда началась боль в животе?".data]) ]) ]

/-- `agent.generate_follow_up_questions`:
`questions.get(symptom, {}).get(lang, questions.get(symptom, {}).get("en", []))`. -/
def generate_follow_up_questions (symptom : String) (lang : String) : List (List Char) :=
  let inner := dictGet follow_up_question_table symptom []
  dictGet inner lang (dictGet inner "en" [])

/-- The `actions` table of `agent.generate_suggested_actions`. -/
def suggested_action_table : List (String × List (String × List (List Char))) :=
  [ ("headache",
     [ ("en", ["Rest in a quiet, dark room".data, "Stay hydrated".data, "Consider over-the-counter pain relief".data]),
       ("ka", ["დაისვენეთ მშვიდ, მუქ ოთახში".data, "დარჩით ჰიდრატებული".data, "განიხილეთ ტკივილგამათისებელი".data]),
       ("ru", ["Отдохните в тихой, темной комнате".data, "Пейте больше жидкости".data, "Рассмотрите безрецептурные обезболивающие".data]) ]),
    ("fever",
     [ ("en", ["Rest and stay hydrated".data, "Monitor temperature regularly".data, "Use fever reducers if needed".data]),
       ("ka", ["დაისვენეთ და დარჩით ჰიდრატებული".data, "რეგულარულად აკონტროლეთ ტემპერატურა".data, "საჭიროების შემთხვევაში გამოიყენეთ ცხელების შემამცირებელი".data]),
       ("ru", ["Отдыхайте и пейте много жидкости".data, "Регулярно измеряйте температуру".data, "При необходимости используйте жаропонижающие".data]) ]),
    ("stomach_pain",
     [ ("en", ["Eat light foods".data, "Stay hydrated with clear fluids".data, "Rest and avoid heavy meals".data]),
       ("ka", ["მიირთვით მსუბუქი საკვები".data, "დარჩით ჰიდრატებული გამჭვირვალე სითხეებით".data, "დაისვენეთ და ავარიდეთ მძიმე საკვები".data]),
       ("ru", ["Ешьте легкую пищу".data, "Пейте прозрачные жидкости".data, "Отдыхайте и избегайте тяжелой пищи".data]) ]) ]

/-- The `default_actions` table of `agent.generate_suggested_actions`. -/
def default_actions : List (String × List (List Char)) :=
  [ ("en", ["Monitor symptoms".data, "Rest and stay hydrated".data, "Seek medical care if worsening".data]),
    ("ka", ["დააკვირდით სიმპტომებს".data, "დაისვენეთ და დარჩით ჰიდრატებული".data, "მიმართეთ ექიმს თუ უარესდება".data]),
    ("ru", ["Следите за симптомами".data, "Отдыхайте и пейте жидкость".data, "Обратитесь к врачу при ухудшении".data]) ]

/-- `agent.generate_suggested_actions`:
`actions.get(symptom, {}).get(lang, default_actions.get(lang, default_actions["en"]))`.
The `urgency_level` parameter is accepted and ignored, as in the source. -/
def generate_suggested_actions (symptom : String) (urgency_level : String) (lang : String) :
    List (List Char) :=
  let inner := dictGet suggested_action_table symptom []
  dictGet inner lang (dictGet default_actions lang (dictGet default_actions "en" []))

/-- The dict returned by `agent.call_llm`. -/
structure LLMResult where
  reply : List Char
  follow_up_questions : List (List Char)
  suggested_actions : List (List Char)
  urgency_level : String
  disease_info : Option DiseaseInfo
deriving DecidableEq

/-- The `fallback_responses` dict in the exception handler of `agent.call_llm`. -/
def fallback_responses : List (String × List Char) :=
  [ ("ka", "ვწუხვარ, პასუხის გენერაცია ვერ გამოვიდა. სცადეთ მოგვიანებით.\nამასობაში, თუ სიმპტომები მძიმდება, დაეკონტაქტეთ 112‑ს.".data),
    ("ru", "Извините, не удалось получить ответ. Попробуйте позже.\nЕсли состояние ухудшается — звоните 112.".data),
    ("en", "Sorry, I couldn't generate a response right now. Please try again later.\nIf symptoms worsen, call emergency services.".data) ]

/-- `agent.call_llm`.  The prompt-message assembly (system prompt, language
instruction, serialized context, guidance hint) only feeds the external
client, which is modelled by `outcome`: `Except.ok raw` is the client
returning `raw` (`resp.choices[0].message.content`), `Except.error ()` is any
exception from the client layer, caught by the `except` block.  The caught
exception never escapes: the function is total. -/
def call_llm (prompt_user : List Char) (model : String) (lang : String)
    (conversation_context : Option String) (outcome : Except Unit (List Char)) : LLMResult :=
  match outcome with
  | Except.ok raw =>
      let a := analyze_symptoms prompt_user lang
      let primary_symptom := a.1
      let urgency_level := a.2.2
      let disease_info := get_disease_guidance primary_symptom lang
      { reply := pyStrip raw
        follow_up_questions := (generate_follow_up_questions primary_symptom lang).take 1
        suggested_actions := generate_suggested_actions primary_symptom urgency_level lang
        urgency_level := urgency_level
        disease_info := disease_info }
  | Except.error _ =>
      { reply := dictGet fallback_responses lang (dictGet fallback_responses "en" [])
        follow_up_questions := []
        suggested_actions := []
        urgency_level := "low"
        disease_info := none }

/-- The localized emergency reply templates of `main.chat`, with the matched
flag substituted for the `.format` placeholder. -/
def emergency_reply (lang : String) (flag : List Char) : List Char :=
  if lang == "ka" then
    "თქვენი აღწერიდან არსებობს გადაუდებელი სიმპტომის რისკი ( მაგ., '".data ++ flag ++
      "').\nგთხოვთ, დაუყოვნებლივ დარეკოთ 112‑ზე ან მიმართოთ უახლოეს გადაუდებელ განყოფილებას.\nთუ შეგიძლიათ, თან წაიღეთ მიმდინარე მედიკამენტების სია და ალერგიების ინფორმაცია.".data
  else if lang == "ru" then
    "По описанию возможен признак неотложного состояния (напр., '".data ++ flag ++
      "').\nНемедленно звоните 112 или обратитесь в ближайшее отделение неотложной помощи.\nЕсли возможно, возьмите с собой список принимаемых препаратов и аллергий.".data
  else
    "Your description suggests a possible urgent symptom (e.g., '".data ++ flag ++
      "').\nPlease call **112** or go to the nearest emergency department **now**.\nIf you can, bring a list of your medications and allergies.".data

/-- `schemas.ChatResponse`: fields not passed by `main.chat` keep their
pydantic default `None`. -/
structure ChatResponse where
  reply : List Char
  follow_up_questions : Option (List (List Char))
  suggested_actions : Option (List (List Char))
  urgency_level : Option String
  disease_info : Option DiseaseInfo
deriving DecidableEq

instance {ε α : Type} [DecidableEq ε] [DecidableEq α] : DecidableEq (Except ε α) := fun x y =>
  match x, y with
  | .ok a, .ok b => decidable_of_iff (a = b) (by simp)
  | .error a, .error b => decidable_of_iff (a = b) (by simp)
  | .ok _, .error _ => isFalse (fun h => Except.noConfusion h)
  | .error _, .ok _ => isFalse (fun h => Except.noConfusion h)

/-- The outcome of one `/api/chat` request: the HTTP response (an
`HTTPException` status code, or a `ChatResponse`) together with how many
times the handler invoked `detect_lang`, `emergency_red_flags` and
`call_llm`. -/
structure ChatResult where
  response : Except Nat ChatResponse
  detect_calls : Nat
  scan_calls : Nat
  llm_calls : Nat
deriving DecidableEq

/-- `main.chat`, the `/api/chat` handler.  `model` is the `MODEL_NAME`
environment value, `outcome` the behavior of the external client for this
request (see `call_llm`). -/
def chat (message : List Char) (conversation_context : Option String) (model : String)
    (outcome : Except Unit (List Char)) : ChatResult :=
  let user_text := pyStrip message
  if user_text.isEmpty then
    { response := Except.error 400, detect_calls := 0, scan_calls := 0, llm_calls := 0 }
  else
    let lang := detect_lang user_text
    match emergency_red_flags user_text with
    | some flag =>
        { response := Except.ok
            { reply := emergency_reply lang flag
              follow_up_questions := none
              suggested_actions :=
                some ["Call 112".data, "Go to emergency department".data, "Bring medication list".data]
              urgency_level := some "emergency"
              disease_info := none }
          detect_calls := 1, scan_calls := 1, llm_calls := 0 }
    | none =>
        let rd := call_llm user_text model lang conversation_context outcome
        { response := Except.ok
            { reply := rd.reply
              follow_up_questions := some rd.follow_up_questions
              suggested_actions := some rd.suggested_actions
              urgency_level := some rd.urgency_level
              disease_info := rd.disease_info }
          detect_calls := 1, scan_calls := 1, llm_calls := 1 }

/-- `startsWithL n h` holds exactly when `h` begins with `n`. -/
theorem startsWithL_iff : ∀ (n h : List Char), startsWithL n h = true ↔ ∃ t, h = n ++ t
  | [], h => by simp [startsWithL]
  | _ :: _, [] => by simp [startsWithL]
  | a :: as, b :: bs => by
      simp only [startsWithL, Bool.and_eq_true, beq_iff_eq, startsWithL_iff as bs,
        List.cons_append, List.cons.injEq]
      constructor
      · rintro ⟨rfl, t, rfl⟩
        exact ⟨t, rfl, rfl⟩
      · rintro ⟨t, rfl, rfl⟩
        exact ⟨rfl, t, rfl⟩

/-- `containsSub n h` is exactly Python's substring containment `n in h`. -/
theorem containsSub_iff : ∀ (n h : List Char), containsSub n h = true ↔ ∃ p q, h = p ++ n ++ q
  | n, [] => by
      constructor
      · intro hc
        rcases (startsWithL_iff n []).mp (by simpa [containsSub] using hc) with ⟨t, ht⟩
        exact ⟨[], t, by simpa using ht⟩
      · rintro ⟨p, q, hpq⟩
        have h1 := hpq.symm
        simp only [List.append_eq_nil] at h1
        obtain ⟨⟨rfl, rfl⟩, rfl⟩ := h1
        rfl
  | n, b :: bs => by
      have hunf : containsSub n (b :: bs) = (startsWithL n (b :: bs) || containsSub n bs) := rfl
      rw [hunf]
      simp only [Bool.or_eq_true, startsWithL_iff, containsSub_iff n bs]
      constructor
      · rintro (⟨t, ht⟩ | ⟨p, q, rfl⟩)
        · exact ⟨[], t, by simpa using ht⟩
        · exact ⟨b :: p, q, by simp⟩
      · rintro ⟨p, q, hpq⟩
        cases p with
        | nil => exact Or.inl ⟨q, by simpa using hpq⟩
        | cons x xs =>
            rw [List.cons_append, List.cons_append] at hpq
            injection hpq with h1 h2
            exact Or.inr ⟨xs, q, by rw [h2, List.append_assoc]⟩

/-- Containment survives appending on the right. -/
theorem containsSub_append (n s t : List Char) (h : containsSub n s = true) :
    containsSub n (s ++ t) = true := by
  rcases (containsSub_iff n s).mp h with ⟨p, q, rfl⟩
  exact (containsSub_iff n _).mpr ⟨p, q ++ t, by simp⟩

/-- `find?` returns `some a` exactly when `a` is the first element satisfying
the predicate: everything before it fails the predicate. -/
theorem find?_eq_some_split {α : Type} (p : α → Bool) :
    ∀ (l : List α) (a : α),
      l.find? p = some a ↔
        p a = true ∧ ∃ l₁ l₂, l = l₁ ++ a :: l₂ ∧ ∀ b ∈ l₁, p b = false
  | [], a => by simp
  | x :: xs, a => by
      by_cases hx : p x = true
      · rw [List.find?_cons_of_pos _ hx]
        constructor
        · intro h
          obtain rfl : x = a := by injection h
          exact ⟨hx, [], xs, rfl, by simp⟩
        · rintro ⟨hpa, l₁, l₂, hsplit, hall⟩
          cases l₁ with
          | nil =>
              obtain ⟨rfl, rfl⟩ : x = a ∧ xs = l₂ := by
                rw [List.nil_append] at hsplit
                injection hsplit with h1 h2
                exact ⟨h1, h2⟩
              rfl
          | cons y ys =>
              rw [List.cons_append] at hsplit
              obtain ⟨rfl, h2⟩ : x = y ∧ xs = ys ++ a :: l₂ := by
                injection hsplit with h1 h2
                exact ⟨h1, h2⟩
              exact absurd hx (by simp [hall x (by simp)])
      · rw [List.find?_cons_of_neg _ hx, find?_eq_some_split p xs a]
        constructor
        · rintro ⟨hpa, l₁, l₂, rfl, hall⟩
          refine ⟨hpa, x :: l₁, l₂, rfl, ?_⟩
          intro b hb
          rcases List.mem_cons.mp hb with rfl | hb
          · exact Bool.eq_false_iff.mpr hx
          · exact hall b hb
        · rintro ⟨hpa, l₁, l₂, hsplit, hall⟩
          cases l₁ with
          | nil =>
              obtain ⟨rfl, rfl⟩ : x = a ∧ xs = l₂ := by
                rw [List.nil_append] at hsplit
                injection hsplit with h1 h2
                exact ⟨h1, h2⟩
              exact absurd hpa hx
          | cons y ys =>
              rw [List.cons_append] at hsplit
              obtain ⟨rfl, h2⟩ : x = y ∧ xs = ys ++ a :: l₂ := by
                injection hsplit with h1 h2
                exact ⟨h1, h2⟩
              exact ⟨hpa, ys, l₂, h2, fun b hb => hall b (by simp [hb])⟩

/-- The head of a filtered-and-projected list (with default) is the
projection of the first element the predicate accepts. -/
theorem headD_filter_find? {α β : Type} (pred : α → Bool) (f : α → β) (d : β) :
    ∀ l : List α,
      ((l.filter pred).map f).headD d =
        (match l.find? pred with
         | some a => f a
         | none => d)
  | [] => rfl
  | x :: xs => by
      by_cases hx : pred x = true
      · rw [List.find?_cons_of_pos _ hx]
        simp [List.filter_cons, hx]
      · rw [List.find?_cons_of_neg _ hx]
        simp only [List.filter_cons, hx]
        simpa using headD_filter_find? pred f d xs

/-- Claim C5: `detect_lang` returns "ka" if the count of Georgian-block
characters (U+10A0-U+10FF) exceeds the Cyrillic-block count (U+0400-U+04FF)
and is positive; else "ru" if the Cyrillic count is positive; else "en" —
in particular any text with no character of either block yields "en". -/
theorem detect_lang_spec (text : List Char) :
    (detect_lang text =
      (if ((text.filter (fun ch => decide ('Ⴀ' ≤ ch) && decide (ch ≤ 'ჿ'))).length >
             (text.filter (fun ch => decide ('Ѐ' ≤ ch) && decide (ch ≤ 'ӿ'))).length ∧
           (text.filter (fun ch => decide ('Ⴀ' ≤ ch) && decide (ch ≤ 'ჿ'))).length > 0)
       then "ka"
       else if (text.filter (fun ch => decide ('Ѐ' ≤ ch) && decide (ch ≤ 'ӿ'))).length > 0
       then "ru"
       else "en")) ∧
    ((∀ ch ∈ text, ¬('Ⴀ' ≤ ch ∧ ch ≤ 'ჿ') ∧ ¬('Ѐ' ≤ ch ∧ ch ≤ 'ӿ')) →
      detect_lang text = "en") := by
  constructor
  · simp only [detect_lang, List.countP_eq_length_filter]
  · intro h
    have hka : text.countP (fun ch => decide ('Ⴀ' ≤ ch) && decide (ch ≤ 'ჿ')) = 0 := by
      rw [List.countP_eq_zero]
      intro a ha hc
      simp only [Bool.and_eq_true, decide_eq_true_eq] at hc
      exact (h a ha).1 hc
    have hru : text.countP (fun ch => decide ('Ѐ' ≤ ch) && decide (ch ≤ 'ӿ')) = 0 := by
      rw [List.countP_eq_zero]
      intro a ha hc
      simp only [Bool.and_eq_true, decide_eq_true_eq] at hc
      exact (h a ha).2 hc
    simp [detect_lang, hka, hru]

/-- Witness for C5 at a concrete Latin-only input. -/
theorem detect_lang_spec_witness : detect_lang "hello there!".data = "en" :=
  (detect_lang_spec ("hello there!".data)).2 (by decide)

/-- Claim C6: `emergency_red_flags` lowercases the text and returns the first
catalog phrase, in catalog order, contained in the lowercased text, or none
when no phrase is contained; among simultaneous matches the earliest in
catalog order wins. -/
theorem emergency_red_flags_spec (text : List Char) :
    (∀ kw, emergency_red_flags text = some kw →
        (∃ p q, pyLower text = p ++ kw ++ q) ∧
        ∃ l₁ l₂, red_flag_phrases = l₁ ++ kw :: l₂ ∧
          ∀ kw2 ∈ l₁, ¬ ∃ p q, pyLower text = p ++ kw2 ++ q) ∧
    (emergency_red_flags text = none →
        ∀ kw ∈ red_flag_phrases, ¬ ∃ p q, pyLower text = p ++ kw ++ q) := by
  have hmap : emergency_red_flags text =
      red_flag_phrases.find? (fun kw => containsSub kw (pyLower text)) := by
    rw [red_flag_phrases, List.find?_map]
    rfl
  constructor
  · intro kw hk
    rw [hmap] at hk
    obtain ⟨hp, l₁, l₂, hsplit, hnone⟩ := (find?_eq_some_split _ _ _).mp hk
    refine ⟨(containsSub_iff _ _).mp hp, l₁, l₂, hsplit, ?_⟩
    intro kw2 h2 hex
    have hfalse := hnone kw2 h2
    rw [(containsSub_iff _ _).mpr hex] at hfalse
    exact Bool.true_eq_false ▸ hfalse
  · intro hn kw hkw hex
    rw [hmap] at hn
    exact (List.find?_eq_none.mp hn kw hkw) ((containsSub_iff _ _).mpr hex)

/-- Witness for C6: on an input matching "chest pain", the scanner's answer
certifies containment in the lowercased text. -/
theorem emergency_red_flags_spec_witness :
    ∃ p q, pyLower "Ouch, CHEST PAIN!".data = p ++ "chest pain".data ++ q :=
  (((emergency_red_flags_spec ("Ouch, CHEST PAIN!".data)).1 ("chest pain".data)) (by decide)).1

/-- Claim C7: the scanner is monotonic under appending — if it matches on
`s`, it still matches on `s ++ t`. -/
theorem emergency_red_flags_append_mono (s t : List Char)
    (h : (emergency_red_flags s).isSome = true) :
    (emergency_red_flags (s ++ t)).isSome = true := by
  obtain ⟨x, hmem, hx⟩ : ∃ y ∈ red_flag_catalog, containsSub y.1 (pyLower s) = true := by
    rcases hopt : red_flag_catalog.find? (fun p => containsSub p.1 (pyLower s)) with _ | x
    · refine absurd h ?_
      have hnone : emergency_red_flags s = none := by
        show (red_flag_catalog.find? (fun p => containsSub p.1 (pyLower s))).map Prod.fst = none
        rw [hopt]
        rfl
      simp [hnone]
    · refine ⟨x, List.mem_of_find?_eq_some hopt, ?_⟩
      have hpx := List.find?_some hopt
      simpa using hpx
  have hc : containsSub x.1 (pyLower (s ++ t)) = true := by
    have hl : pyLower (s ++ t) = pyLower s ++ pyLower t := by simp [pyLower]
    rw [hl]
    exact containsSub_append _ _ _ hx
  have hfind : (red_flag_catalog.find? (fun p => containsSub p.1 (pyLower (s ++ t)))).isSome = true :=
    List.find?_isSome.mpr ⟨x, hmem, hc⟩
  rcases hopt2 : red_flag_catalog.find? (fun p => containsSub p.1 (pyLower (s ++ t))) with _ | y
  · rw [hopt2] at hfind
    exact absurd hfind (by simp)
  · show ((red_flag_catalog.find? (fun p => containsSub p.1 (pyLower (s ++ t)))).map Prod.fst).isSome = true
    rw [hopt2]
    rfl

/-- Witness for C7 at a concrete matching prefix. -/
theorem emergency_red_flags_append_mono_witness :
    (emergency_red_flags ("chest pain".data ++ " but it is mild".data)).isSome = true :=
  emergency_red_flags_append_mono ("chest pain".data) (" but it is mild".data) (by decide)

/-- Claim C9: whatever the outcome of the external call, the
`follow_up_questions` list returned by `call_llm` has length at most 1. -/
theorem call_llm_follow_up_le_one (prompt_user : List Char) (model lang : String)
    (ctx : Option String) (outcome : Except Unit (List Char)) :
    (call_llm prompt_user model lang ctx outcome).follow_up_questions.length ≤ 1 := by
  cases outcome with
  | error e => simp [call_llm]
  | ok raw =>
      simp only [call_llm, List.length_take]
      exact min_le_left _ _

/-- Claim C10: guideline lookup is by exact string equality against the four
store keys and their symptom-keyword lists; "cough", "cold" and "general"
resolve to nothing, "fever" resolves to the flu entry via keyword
membership, "headache" and "stomach_pain" to their own entries. -/
theorem get_disease_guidance_spec (lang : String) :
    DISEASE_GUIDELINES.map Prod.fst = ["common_cold", "flu", "headache", "stomach_pain"] ∧
    get_disease_guidance "cough" lang = none ∧
    get_disease_guidance "cold" lang = none ∧
    get_disease_guidance "general" lang = none ∧
    (get_disease_guidance "fever" lang).map DiseaseInfo.condition = some "flu" ∧
    (get_disease_guidance "headache" lang).map DiseaseInfo.condition = some "headache" ∧
    (get_disease_guidance "stomach_pain" lang).map DiseaseInfo.condition = some "stomach_pain" :=
  ⟨rfl, rfl, rfl, rfl, rfl, rfl, rfl⟩

/-- Claim C2: when the external call raises, `call_llm` returns the fixed
hardcoded fallback text for the detected language (the English text for any
other language value), empty question and action lists, urgency "low" and no
disease info; the exception is swallowed (the function is total and this is
its value on every failing outcome). -/
theorem call_llm_failure_fallback (prompt_user : List Char) (model lang : String)
    (ctx : Option String) :
    (call_llm prompt_user model lang ctx (Except.error ())).follow_up_questions = [] ∧
    (call_llm prompt_user model lang ctx (Except.error ())).suggested_actions = [] ∧
    (call_llm prompt_user model lang ctx (Except.error ())).urgency_level = "low" ∧
    (call_llm prompt_user model lang ctx (Except.error ())).disease_info = none ∧
    (call_llm prompt_user model lang ctx (Except.error ())).reply =
      (if lang = "ka" then
        "ვწუხვარ, პასუხის გენერაცია ვერ გამოვიდა. სცადეთ მოგვიანებით.\nამასობაში, თუ სიმპტომები მძიმდება, დაეკონტაქტეთ 112‑ს.".data
       else if lang = "ru" then
        "Извините, не удалось получить ответ. Попробуйте позже.\nЕсли состояние ухудшается — звоните 112.".data
       else
        "Sorry, I couldn't generate a response right now. Please try again later.\nIf symptoms worsen, call emergency services.".data) := by
  refine ⟨rfl, rfl, rfl, rfl, ?_⟩
  by_cases hka : lang = "ka"
  · subst hka
    rfl
  · by_cases hru : lang = "ru"
    · subst hru
      rfl
    · by_cases hen : lang = "en"
      · subst hen
        rfl
      · have h1 : (("ka" : String) == lang) = false := beq_eq_false_iff_ne.mpr (Ne.symm hka)
        have h2 : (("ru" : String) == lang) = false := beq_eq_false_iff_ne.mpr (Ne.symm hru)
        have h3 : (("en" : String) == lang) = false := beq_eq_false_iff_ne.mpr (Ne.symm hen)
        simp [call_llm, dictGet, dictGet?, fallback_responses, List.find?, h1, h2, h3, hka, hru]

/-- Claim C4: when the question table has no entry for the symptom category,
the follow-up lookup yields the category-agnostic default (the empty list,
whatever the language); when the action table has no entry, the action
lookup yields the category-agnostic `default_actions` entry for the
language, which falls back to the English entry for unknown languages; and
every lookup result is either a table-entry list or the respective
default. -/
theorem composer_fallback_spec :
    (∀ symptom lang, dictGet? follow_up_question_table symptom = none →
        generate_follow_up_questions symptom lang = []) ∧
    (∀ symptom urgency lang, dictGet? suggested_action_table symptom = none →
        generate_suggested_actions symptom urgency lang =
          dictGet default_actions lang (dictGet default_actions "en" [])) ∧
    (∀ lang, lang ≠ "en" → lang ≠ "ka" → lang ≠ "ru" →
        dictGet default_actions lang (dictGet default_actions "en" []) =
          ["Monitor symptoms".data, "Rest and stay hydrated".data,
           "Seek medical care if worsening".data]) ∧
    (∀ symptom lang, generate_follow_up_questions symptom lang = [] ∨
        ∃ inner, dictGet? follow_up_question_table symptom = some inner ∧
          ∃ l, dictGet? inner l = some (generate_follow_up_questions symptom lang)) ∧
    (∀ symptom urgency lang,
        (∃ inner, dictGet? suggested_action_table symptom = some inner ∧
            ∃ l, dictGet? inner l = some (generate_suggested_actions symptom urgency lang)) ∨
        ∃ l, dictGet? default_actions l = some (generate_suggested_actions symptom urgency lang)) := by
  refine ⟨?_, ?_, ?_, ?_, ?_⟩
  · intro symptom lang h
    simp only [generate_follow_up_questions, dictGet, h, Option.getD_none]
    rfl
  · intro symptom urgency lang h
    simp only [generate_suggested_actions, dictGet, h, Option.getD_none]
    rfl
  · intro lang h1 h2 h3
    have b1 : (("ka" : String) == lang) = false := beq_eq_false_iff_ne.mpr (Ne.symm h2)
    have b2 : (("ru" : String) == lang) = false := beq_eq_false_iff_ne.mpr (Ne.symm h3)
    have b3 : (("en" : String) == lang) = false := beq_eq_false_iff_ne.mpr (Ne.symm h1)
    simp [dictGet, dictGet?, default_actions, List.find?, b1, b2, b3]
  · intro symptom lang
    rcases houter : dictGet? follow_up_question_table symptom with _ | inner
    · left
      simp only [generate_follow_up_questions, dictGet, houter, Option.getD_none]
      rfl
    · rcases hlang : dictGet? inner lang with _ | v
      · rcases hen : dictGet? inner "en" with _ | w
        · left
          simp only [generate_follow_up_questions, dictGet, houter, hlang, hen,
            Option.getD_none, Option.getD_some]
        · right
          refine ⟨inner, rfl, "en", ?_⟩
          rw [hen]
          simp only [generate_follow_up_questions, dictGet, houter, hlang, hen,
            Option.getD_none, Option.getD_some]
      · right
        refine ⟨inner, rfl, lang, ?_⟩
        rw [hlang]
        simp only [generate_follow_up_questions, dictGet, houter, hlang, Option.getD_some]
  · intro symptom urgency lang
    rcases houter : dictGet? suggested_action_table symptom with _ | inner
    · right
      rcases hdl : dictGet? default_actions lang with _ | v
      · refine ⟨"en", ?_⟩
        have hen : dictGet? default_actions "en" =
            some ["Monitor symptoms".data, "Rest and stay hydrated".data,
              "Seek medical care if worsening".data] := rfl
        rw [hen]
        simp only [generate_suggested_actions, dictGet, houter, hdl, hen,
          Option.getD_none, Option.getD_some]
        rfl
      · refine ⟨lang, ?_⟩
        rw [hdl]
        simp only [generate_suggested_actions, dictGet, houter, hdl,
          Option.getD_none, Option.getD_some]
        rfl
    · rcases hlang : dictGet? inner lang with _ | v
      · right
        rcases hdl : dictGet? default_actions lang with _ | w
        · refine ⟨"en", ?_⟩
          have hen : dictGet? default_actions "en" =
              some ["Monitor symptoms".data, "Rest and stay hydrated".data,
                "Seek medical care if worsening".data] := rfl
          rw [hen]
          simp only [generate_suggested_actions, dictGet, houter, hlang, hdl, hen,
            Option.getD_none, Option.getD_some]
        · refine ⟨lang, ?_⟩
          rw [hdl]
          simp only [generate_suggested_actions, dictGet, houter, hlang, hdl,
            Option.getD_none, Option.getD_some]
      · left
        refine ⟨inner, rfl, lang, ?_⟩
        rw [hlang]
        simp only [generate_suggested_actions, dictGet, houter, hlang, Option.getD_some]

/-- Witness for C4 at the category "cold" (no table entry) and the unknown
language "fr". -/
theorem composer_fallback_spec_witness :
    generate_follow_up_questions "cold" "fr" = [] ∧
    generate_suggested_actions "cold" "low" "fr" =
      ["Monitor symptoms".data, "Rest and stay hydrated".data,
       "Seek medical care if worsening".data] :=
  ⟨composer_fallback_spec.1 "cold" "fr" (by decide),
   (composer_fallback_spec.2.1 "cold" "low" "fr" (by decide)).trans
     (composer_fallback_spec.2.2.1 "fr" (by decide) (by decide) (by decide))⟩

/-- Claim C8: the classifier's primary symptom is the first category of the
keyword table, in its fixed iteration order, one of whose keywords occurs in
the lowercased text ("general" when none matches); its urgency hint is
"moderate" exactly when the lowercased text contains a high-urgency keyword
and "low" otherwise — never "high" or "emergency". -/
theorem analyze_symptoms_spec (text : List Char) (lang : String) :
    ((analyze_symptoms text lang).2.2 = "low" ∨ (analyze_symptoms text lang).2.2 = "moderate") ∧
    ((analyze_symptoms text lang).2.2 = "moderate" ↔
      ∃ kw ∈ high_urgency_keywords, ∃ p q, pyLower text = p ++ kw ++ q) ∧
    (∀ c kws l₁ l₂, symptom_keywords = l₁ ++ (c, kws) :: l₂ →
      (∃ kw ∈ kws, ∃ p q, pyLower text = p ++ kw ++ q) →
      (∀ e ∈ l₁, ∀ kw ∈ e.2, ¬ ∃ p q, pyLower text = p ++ kw ++ q) →
      (analyze_symptoms text lang).1 = c) ∧
    ((∀ e ∈ symptom_keywords, ∀ kw ∈ e.2, ¬ ∃ p q, pyLower text = p ++ kw ++ q) →
      (analyze_symptoms text lang).1 = "general") := by
  have hu : (analyze_symptoms text lang).2.2 =
      (if high_urgency_keywords.any (fun kw => containsSub kw (pyLower text)) then "moderate"
       else "low") := rfl
  have hp : (analyze_symptoms text lang).1 =
      ((symptom_keywords.filter
          (fun p => p.2.any (fun kw => containsSub kw (pyLower text)))).map Prod.fst).headD
        "general" := rfl
  refine ⟨?_, ?_, ?_, ?_⟩
  · rw [hu]
    by_cases hb : high_urgency_keywords.any (fun kw => containsSub kw (pyLower text)) = true
    · right
      rw [if_pos hb]
    · left
      rw [if_neg hb]
  · rw [hu]
    by_cases hb : high_urgency_keywords.any (fun kw => containsSub kw (pyLower text)) = true
    · rw [if_pos hb]
      constructor
      · intro _
        rcases List.any_eq_true.mp hb with ⟨kw, hkw, hc⟩
        exact ⟨kw, hkw, (containsSub_iff _ _).mp hc⟩
      · intro _
        rfl
    · rw [if_neg hb]
      constructor
      · intro hcontra
        exact absurd hcontra (by decide)
      · rintro ⟨kw, hkw, hex⟩
        exact absurd
          (List.any_eq_true.mpr ⟨kw, hkw, (containsSub_iff kw (pyLower text)).mpr hex⟩) hb
  · intro c kws l₁ l₂ hsplit hex hnone
    rw [hp, headD_filter_find?]
    have hfind : symptom_keywords.find?
        (fun p => p.2.any (fun kw => containsSub kw (pyLower text))) = some (c, kws) := by
      apply (find?_eq_some_split _ _ _).mpr
      refine ⟨?_, l₁, l₂, hsplit, ?_⟩
      · rcases hex with ⟨kw, hkw, hpq⟩
        exact List.any_eq_true.mpr ⟨kw, hkw, (containsSub_iff kw (pyLower text)).mpr hpq⟩
      · intro b hb
        rw [Bool.eq_false_iff]
        intro habs
        rcases List.any_eq_true.mp habs with ⟨kw, hkw, hc⟩
        exact hnone b hb kw hkw ((containsSub_iff _ _).mp hc)
    rw [hfind]
  · intro hnone
    rw [hp, headD_filter_find?]
    have hfind : symptom_keywords.find?
        (fun p => p.2.any (fun kw => containsSub kw (pyLower text))) = none := by
      apply List.find?_eq_none.mpr
      intro x hx habs
      rcases List.any_eq_true.mp habs with ⟨kw, hkw, hc⟩
      exact hnone x hx kw hkw ((containsSub_iff _ _).mp hc)
    rw [hfind]

/-- Witness for C8: "severe migraine" classifies as "headache" (the first
table category, matched through the keyword "migraine") with urgency
"moderate" (through "severe"). -/
theorem analyze_symptoms_spec_witness :
    (analyze_symptoms "severe migraine".data "en").1 = "headache" ∧
    (analyze_symptoms "severe migraine".data "en").2.2 = "moderate" :=
  ⟨(analyze_symptoms_spec ("severe migraine".data) "en").2.2.1 "headache"
      ["headache".data, "head pain".data, "migraine".data, "თავის ტკივილი".data,
        "головная боль".data]
      [] symptom_keywords.tail rfl
      ⟨"migraine".data, by decide, "severe ".data, [], by decide⟩
      (fun e he => absurd he (List.not_mem_nil e)),
   (analyze_symptoms_spec ("severe migraine".data) "en").2.1.mpr
     ⟨"severe".data, by decide, [], " migraine".data, by decide⟩⟩

/-- Claim C1: whenever the red-flag scanner matches the stripped input, the
chat handler short-circuits — for every external-call outcome it returns the
language-localized emergency reply naming the matched phrase, with urgency
"emergency" and the fixed action triple, and `call_llm` is never invoked
(`llm_calls = 0` and the result does not depend on `outcome`). -/
theorem chat_red_flag_short_circuit (message : List Char) (ctx : Option String)
    (model : String) (outcome : Except Unit (List Char)) (kw : List Char)
    (hflag : emergency_red_flags (pyStrip message) = some kw) :
    chat message ctx model outcome =
      { response := Except.ok
          { reply := emergency_reply (detect_lang (pyStrip message)) kw
            follow_up_questions := none
            suggested_actions :=
              some ["Call 112".data, "Go to emergency department".data,
                "Bring medication list".data]
            urgency_level := some "emergency"
            disease_info := none }
        detect_calls := 1
        scan_calls := 1
        llm_calls := 0 } ∧
    ∃ p q, emergency_reply (detect_lang (pyStrip message)) kw = p ++ kw ++ q := by
  have hne : (pyStrip message).isEmpty = false := by
    cases hemp : (pyStrip message).isEmpty
    · rfl
    · exfalso
      have h0 : pyStrip message = [] := List.isEmpty_iff.mp hemp
      rw [h0] at hflag
      have hnone : emergency_red_flags ([] : List Char) = none := rfl
      rw [hnone] at hflag
      exact Option.noConfusion hflag
  constructor
  · simp [chat, hne, hflag]
  · unfold emergency_reply
    split_ifs <;> exact ⟨_, _, rfl⟩

/-- Witness for C1 at the input "I have chest pain" with a failing external
client. -/
theorem chat_red_flag_short_circuit_witness :
    chat "I have chest pain".data none "gpt-4o" (Except.error ()) =
      { response := Except.ok
          { reply := emergency_reply (detect_lang (pyStrip "I have chest pain".data))
              ("chest pain".data)
            follow_up_questions := none
            suggested_actions :=
              some ["Call 112".data, "Go to emergency department".data,
                "Bring medication list".data]
            urgency_level := some "emergency"
            disease_info := none }
        detect_calls := 1
        scan_calls := 1
        llm_calls := 0 } ∧
    ∃ p q, emergency_reply (detect_lang (pyStrip "I have chest pain".data)) ("chest pain".data) =
      p ++ "chest pain".data ++ q :=
  chat_red_flag_short_circuit ("I have chest pain".data) none "gpt-4o" (Except.error ())
    ("chest pain".data) (by decide)

/-- Claim C3: a message that is empty or all whitespace is rejected with
HTTP 400 before any processing: no language detection, no red-flag scan and
no classification or external call happen (all counters are 0), and no
`ChatResponse` is produced. -/
theorem chat_empty_message (message : List Char) (ctx : Option String) (model : String)
    (outcome : Except Unit (List Char)) (h : ∀ c ∈ message, isPySpace c = true) :
    chat message ctx model outcome =
      { response := Except.error 400, detect_calls := 0, scan_calls := 0, llm_calls := 0 } := by
  have hstrip : pyStrip message = [] := by
    have h1 : message.dropWhile isPySpace = [] := List.dropWhile_eq_nil_iff.mpr h
    simp [pyStrip, h1]
  simp [chat, hstrip]

/-- Witness for C3 at a three-space message. -/
theorem chat_empty_message_witness :
    chat "   ".data none "gpt-4o" (Except.ok "hi".data) =
      { response := Except.error 400, detect_calls := 0, scan_calls := 0, llm_calls := 0 } :=
  chat_empty_message ("   ".data) none "gpt-4o" (Except.ok ("hi".data)) (by decide)
